import Mathlib

/-!
Verification of the docker panel controller (crates/docker_ui/src/docker_ui.rs)
and the macOS menu-bar status item (crates/zed/src/zed/menu_bar_icon.rs) of the
zed fork, against their natural-language specification.

The embedding is shallow: the gpui `Pixels` scalar (an f32 wrapper) is modelled
as a rational number, the key-value store and serde are external collaborators
modelled by their outcomes, and the `cx.notify()` redraw signal is returned as
an explicit boolean alongside the new state.
-/

namespace ZedVerify

/-- gpui pixel scalar, modelled as a rational number. -/
abbrev Pixels := ℚ

/-- `Pixels::round` delegates to `f32::round`: round half away from zero. -/
def pixelsRound (p : Pixels) : Pixels :=
  if 0 ≤ p then ((⌊p + 1/2⌋ : ℤ) : ℚ) else ((⌈p - 1/2⌉ : ℤ) : ℚ)

/-- `workspace::dock::DockPosition`. -/
inductive DockPosition
  | Left
  | Bottom
  | Right
deriving DecidableEq, Repr

/-- `DockerPanelSettings`: the globally registered settings of the panel
(fields `button`, `dock`, `default_width`). -/
structure DockerPanelSettings where
  button : Bool
  dock : DockPosition
  default_width : Pixels
deriving DecidableEq, Repr

/-- `SerializedDockerPanel`: the record persisted in the key-value store under
the key "DockerPanel" (`\x7b width: optional float \x7d`). -/
structure SerializedDockerPanel where
  width : Option Pixels
deriving DecidableEq, Repr

/-- The state of a `DockerPanel` view. The Rust struct also holds an `fs`
handle, a focus handle, a weak workspace handle and a timezone, all opaque
host-framework handles that no operation of the claims reads or branches on;
the pending serialization task (`pending_serialization : Task<Option<()>>`)
is modelled by the record its spawned future will write, `none` standing for
the initial `Task::ready(None)`. -/
structure DockerPanel where
  width : Option Pixels
  active : Bool
  pending_serialization : Option SerializedDockerPanel
deriving DecidableEq, Repr

/-- `DockerPanel::new`: width unset, inactive, no pending serialization. -/
def DockerPanel.new : DockerPanel :=
  { width := none, active := false, pending_serialization := none }

/-- `util::ResultExt::log_err`: logs the error and converts `Result<T>` to
`Option<T>`. -/
def logErr {ε α : Type} : Except ε α → Option α
  | .ok a => some a
  | .error _ => none

/-- The error cases of the `anyhow::Result` returned by `DockerPanel::load`'s
task. -/
inductive LoadError
  | parseFailure
  | workspaceDropped
deriving DecidableEq, Repr

/-- `DockerPanel::load`. The outcome of `KEY_VALUE_STORE.read_kvp` is the
parameter `read_kvp` (an I/O error, a missing record, or a payload string);
`parse` is the outcome of `serde_json::from_str::<SerializedDockerPanel>`;
`workspaceAlive` tells whether `workspace.update` still reaches the view.
Returns the constructed panel together with the boolean of whether
`cx.notify()` was called. Note the source applies `.log_err().flatten()` only
to the read result, while the parse result is propagated with `?`. -/
def DockerPanel.load (read_kvp : Except String (Option String))
    (parse : String → Except String SerializedDockerPanel)
    (workspaceAlive : Bool) : Except LoadError (DockerPanel × Bool) :=
  match Option.join (logErr read_kvp) with
  | some payload =>
    match parse payload with
    | .error _ => .error .parseFailure
    | .ok serialized =>
      if workspaceAlive then
        .ok ({ DockerPanel.new with width := serialized.width.map pixelsRound }, true)
      else .error .workspaceDropped
  | none =>
    if workspaceAlive then .ok (DockerPanel.new, false)
    else .error .workspaceDropped

/-- `DockerPanel::serialize`: replaces the pending serialization task with one
that will write `SerializedDockerPanel \x7b width: self.width \x7d` under the
panel key. -/
def DockerPanel.serialize (p : DockerPanel) : DockerPanel :=
  { p with pending_serialization := some { width := p.width } }

/-- `Panel::set_size` for `DockerPanel`: stores the width, serializes, and
calls `cx.notify()` (the returned boolean). -/
def DockerPanel.set_size (p : DockerPanel) (size : Option Pixels) :
    DockerPanel × Bool :=
  (({ p with width := size }).serialize, true)

/-- `Panel::set_active` for `DockerPanel`: stores the flag and calls
`cx.notify()` exactly when the stored flag is true (the returned boolean). -/
def DockerPanel.set_active (p : DockerPanel) (active : Bool) :
    DockerPanel × Bool :=
  let p := { p with active := active }
  (p, p.active)

/-- `Panel::size` for `DockerPanel`: the stored width, or the
`default_width` of the global `DockerPanelSettings`. -/
def DockerPanel.size (p : DockerPanel) (cx : DockerPanelSettings) : Pixels :=
  p.width.getD cx.default_width

/-- `Panel::position` for `DockerPanel`: the `dock` field of the global
`DockerPanelSettings`. -/
def DockerPanel.position (_p : DockerPanel) (cx : DockerPanelSettings) :
    DockPosition :=
  cx.dock

/-- `Panel::position_is_valid` for `DockerPanel`:
`matches!(position, DockPosition::Left | DockPosition::Right)`. -/
def DockerPanel.position_is_valid (_p : DockerPanel) (position : DockPosition) :
    Bool :=
  match position with
  | .Left | .Right => true
  | _ => false

/-- `ui::IconName` restricted to the variant this code uses. -/
inductive IconName
  | Docker
deriving DecidableEq, Repr

/-- `Panel::icon` for `DockerPanel`: unconditionally `Some(IconName::Docker)`
(the `button` settings check is commented out in the source). -/
def DockerPanel.icon (_p : DockerPanel) (_cx : DockerPanelSettings) :
    Option IconName :=
  some IconName.Docker

/-- Running the pending serialization task against the key-value store
(restricted to the panel key "DockerPanel"): the spawned future overwrites the
stored record; the initial `Task::ready(None)` writes nothing. -/
def flushPending (p : DockerPanel) (store : Option SerializedDockerPanel) :
    Option SerializedDockerPanel :=
  match p.pending_serialization with
  | some r => some r
  | none => store

/-- The three application actions the status-item menu can dispatch. -/
inductive DispatchedAction
  | NewThread
  | OpenAccountSettings
  | Quit
deriving DecidableEq, Repr

/-- `handle_menu_action` (menu_bar_icon.rs): reads the integer tag of the
activated item and dispatches via the captured `AsyncApp`; the returned list
is the sequence of dispatched actions. -/
def handle_menu_action (tag : Int) : List DispatchedAction :=
  match tag with
  | 1 => [.NewThread]
  | 2 => [.OpenAccountSettings]
  | 3 => [.Quit]
  | _ => []

/-- Process-wide state of the status item: whether the mutex-guarded
`MENU_BAR_ICON` holds an icon, and how many native status items
`MenuBarIcon::new` has created. -/
structure MenuBarState where
  icon_installed : Bool
  native_status_items : Nat
deriving DecidableEq, Repr

/-- The state before any call: `MENU_BAR_ICON` is `None`, no native status
item exists. -/
def MenuBarState.uninit : MenuBarState :=
  { icon_installed := false, native_status_items := 0 }

/-- `init_menu_bar_icon` models `initialize_menu_bar_icon`: under the
`MENU_BAR_ICON` mutex, constructs a `MenuBarIcon` (one native status item)
only when none is installed. -/
def init_menu_bar_icon (s : MenuBarState) : MenuBarState :=
  if s.icon_installed then s
  else { icon_installed := true, native_status_items := s.native_status_items + 1 }

/-- Claim C1, counterexample: when the key-value store read succeeds with a
payload that fails to parse, `DockerPanel::load` returns an error to its
caller (the `?` on `serde_json::from_str` propagates), contradicting "never
returns an error ... on any I/O or parse failure". -/
theorem load_parse_error_fails_caller_cex :
    DockerPanel.load (.ok (some "not a record"))
      (fun _ => .error "expected value") true = .error .parseFailure :=
  rfl

/-- Claim C1 (amended): `DockerPanel::load` swallows a read I/O failure and a
missing record — it logs them and produces the default panel (width unset) —
but a parse failure of a present record is propagated as an error to the
caller. -/
theorem load_error_handling_amended
    (read_kvp : Except String (Option String))
    (parse : String → Except String SerializedDockerPanel)
    (s e : String)
    (hread : Option.join (logErr read_kvp) = none)
    (hparse : parse s = .error e) :
    (DockerPanel.load read_kvp parse true = .ok (DockerPanel.new, false) ∧
      DockerPanel.new.width = none) ∧
    DockerPanel.load (.ok (some s)) parse true = .error .parseFailure := by
  refine ⟨⟨?_, rfl⟩, ?_⟩
  · unfold DockerPanel.load
    rw [hread]
    rfl
  · simp [DockerPanel.load, logErr, hparse]

/-- Witness for the amended claim C1 at a concrete failing read and a concrete
failing parse. -/
theorem load_error_handling_amended_witness :
    (DockerPanel.load (.error "io failure")
        (fun _ => .error "bad record") true = .ok (DockerPanel.new, false) ∧
      DockerPanel.new.width = none) ∧
    DockerPanel.load (.ok (some "oops"))
      (fun _ => .error "bad record") true = .error .parseFailure :=
  load_error_handling_amended (.error "io failure")
    (fun _ => .error "bad record") "oops" "bad record" rfl rfl

/-- Claim C2: `handle_menu_action` dispatches exactly one action per the fixed
mapping 1 -> new-thread, 2 -> open-settings, 3 -> quit, and dispatches nothing
for every other tag; at most one action fires on any activation. -/
theorem handle_menu_action_dispatch (tag : Int) :
    handle_menu_action tag =
      (if tag = 1 then [DispatchedAction.NewThread]
       else if tag = 2 then [DispatchedAction.OpenAccountSettings]
       else if tag = 3 then [DispatchedAction.Quit]
       else []) ∧
    (handle_menu_action tag).length ≤ 1 := by
  constructor
  · unfold handle_menu_action
    split <;> simp_all
  · unfold handle_menu_action
    split <;> simp

/-- Reachable states of the status-item singleton: iterating the guarded
constructor from the uninitialized state. -/
theorem init_menu_bar_icon_reach (n : Nat) :
    init_menu_bar_icon^[n] MenuBarState.uninit =
      if n = 0 then MenuBarState.uninit
      else { icon_installed := true, native_status_items := 1 } := by
  induction n with
  | zero => rfl
  | succ k ih =>
    rw [Function.iterate_succ_apply', ih]
    cases k with
    | zero => rfl
    | succ m => simp [init_menu_bar_icon]

/-- Claim C3: the guarded-singleton construction is idempotent — after any
positive number of calls from the uninitialized state exactly one native
status item exists, every reachable state holds at most one, and a further
call on the initialized state is a no-op. -/
theorem init_menu_bar_icon_idem (n : Nat) (h : 1 ≤ n) :
    init_menu_bar_icon^[n] MenuBarState.uninit =
      { icon_installed := true, native_status_items := 1 } ∧
    (init_menu_bar_icon^[n] MenuBarState.uninit).native_status_items ≤ 1 ∧
    init_menu_bar_icon { icon_installed := true, native_status_items := 1 } =
      { icon_installed := true, native_status_items := 1 } := by
  have hr := init_menu_bar_icon_reach n
  rw [if_neg (by omega)] at hr
  exact ⟨hr, by rw [hr], rfl⟩

/-- Witness for claim C3: two calls in the same process leave exactly one
native status item. -/
theorem init_menu_bar_icon_idem_witness :
    init_menu_bar_icon^[2] MenuBarState.uninit =
      { icon_installed := true, native_status_items := 1 } ∧
    (init_menu_bar_icon^[2] MenuBarState.uninit).native_status_items ≤ 1 ∧
    init_menu_bar_icon { icon_installed := true, native_status_items := 1 } =
      { icon_installed := true, native_status_items := 1 } :=
  init_menu_bar_icon_idem 2 (by decide)

/-- Claim C4: `set_active` stores the flag, and the redraw signal fires
exactly when the flag being set is true — in particular never when the flag
is false. -/
theorem set_active_notify_spec (p : DockerPanel) (flag : Bool) :
    (p.set_active flag).1.active = flag ∧
    ((p.set_active flag).2 = true ↔ flag = true) := by
  exact ⟨rfl, Iff.rfl⟩

/-- Claim C5: loading with a stored record whose width parses to `w` yields a
panel whose width is `w` rounded to the nearest integer, and whose reported
size is that rounded value under any settings. -/
theorem load_persisted_width_applied
    (parse : String → Except String SerializedDockerPanel) (s : String)
    (w : Pixels) (cx : DockerPanelSettings)
    (hparse : parse s = .ok { width := some w }) :
    DockerPanel.load (.ok (some s)) parse true =
      .ok ({ DockerPanel.new with width := some (pixelsRound w) }, true) ∧
    DockerPanel.size { DockerPanel.new with width := some (pixelsRound w) } cx =
      pixelsRound w := by
  constructor
  · simp [DockerPanel.load, logErr, hparse]
  · rfl

/-- Witness for claim C5 at the persisted record with width 180: the reported
size is 180. -/
theorem load_persisted_width_applied_witness :
    (DockerPanel.load (.ok (some "width 180"))
        (fun _ => .ok { width := some 180 }) true =
      .ok ({ DockerPanel.new with width := some (pixelsRound 180) }, true) ∧
     DockerPanel.size { DockerPanel.new with width := some (pixelsRound 180) }
        { button := true, dock := .Left, default_width := 240 } =
      pixelsRound 180) ∧
    pixelsRound 180 = 180 :=
  ⟨load_persisted_width_applied (fun _ => .ok { width := some 180 })
      "width 180" 180 { button := true, dock := .Left, default_width := 240 } rfl,
   by norm_num [pixelsRound]⟩

/-- Claim C6: each `set_size` stores the new width, replaces the pending
serialization task with one writing exactly the current width, and signals a
redraw; after two calls in succession only the final width is pending, and
running the pending task persists that final width (last-write-wins). -/
theorem set_size_last_write_wins (p : DockerPanel)
    (w1 w2 : Option Pixels) (store : Option SerializedDockerPanel) :
    ((p.set_size w1).1.width = w1 ∧
     (p.set_size w1).1.pending_serialization = some { width := w1 } ∧
     (p.set_size w1).2 = true) ∧
    (((p.set_size w1).1.set_size w2).1.width = w2 ∧
     ((p.set_size w1).1.set_size w2).1.pending_serialization =
       some { width := w2 } ∧
     ((p.set_size w1).1.set_size w2).2 = true) ∧
    flushPending ((p.set_size w1).1.set_size w2).1 store =
      some { width := w2 } :=
  ⟨⟨rfl, rfl, rfl⟩, ⟨rfl, rfl, rfl⟩, rfl⟩

/-- Claim C7: `position_is_valid` holds exactly for the left and right dock
positions; in particular it is false for the bottom position. -/
theorem position_is_valid_iff (p : DockerPanel) (pos : DockPosition) :
    (p.position_is_valid pos = true ↔
      (pos = DockPosition.Left ∨ pos = DockPosition.Right)) ∧
    p.position_is_valid DockPosition.Bottom = false := by
  refine ⟨?_, rfl⟩
  cases pos <;> simp [DockerPanel.position_is_valid]

/-- Claim C8: `icon` returns `Some(IconName::Docker)` under every settings
state, and never consults the settings: any two panels under any two settings
report the same icon. -/
theorem icon_unconditional (p q : DockerPanel)
    (cx1 cx2 : DockerPanelSettings) :
    p.icon cx1 = some IconName.Docker ∧ p.icon cx1 = q.icon cx2 :=
  ⟨rfl, rfl⟩

/-- Claim C9: `size` reports the stored width when present and otherwise the
`default_width` of the registered settings; after `set_size(None)` clears the
width, `size` falls back to the settings default. -/
theorem size_fallback_spec (p : DockerPanel) (cx : DockerPanelSettings) :
    p.size cx = (match p.width with
                 | some w => w
                 | none => cx.default_width) ∧
    ((p.set_size none).1).size cx = cx.default_width := by
  constructor
  · cases h : p.width <;> simp [DockerPanel.size, h]
  · rfl

/-- Claim C10: `set_active` changes only the `active` field: width and the
pending serialization task are untouched, so no persistence is triggered. -/
theorem set_active_frame (p : DockerPanel) (flag : Bool) :
    (p.set_active flag).1.width = p.width ∧
    (p.set_active flag).1.pending_serialization = p.pending_serialization ∧
    (p.set_active flag).1 = { p with active := flag } :=
  ⟨rfl, rfl, rfl⟩

end ZedVerify
